import Mathlib

/-!
Shallow embedding of the PastorAgenda mobile wrapper's bridge core:
the message envelope and dispatch of `WebViewBridge` (WebViewBridge.tsx),
the permission gate (`requestPermissions`, duplicated verbatim in
MediaService), the MediaService audio-recording state machine, the
WebViewContainer load/retry/readiness machine, the RootLayout splash
overlay controller, and the two message-id generators (native class
counter vs the injected page script).

Native platform calls (expo Camera / Audio / Location / FileSystem ...)
are oracles taken from an explicit `Env` record: each field is the
outcome the corresponding awaited call would produce, with `Except`
modelling a JS promise rejection (the thrown error's message string).
JS numbers that the bridge merely forwards are modelled as `Int`
(no arithmetic is ever performed on them). Every definition mirrors
the control flow of the TypeScript source it is named after.
-/

namespace PastorAgenda

/-- JS numbers carried opaquely through the bridge (coordinates, sizes,
timestamps); the code never computes with them, only copies them. -/
abbrev JSNumber := Int

/-- An asset as returned by `ImagePicker.launchCameraAsync` /
`launchImageLibraryAsync` (`result.assets[0]`). -/
structure PickedAsset where
  uri : String
  width : JSNumber
  height : JSNumber
  type : Option String
  fileName : Option String
  fileSize : Option JSNumber
  deriving Repr, DecidableEq

/-- Outcome of an image/camera picker call that did not reject. -/
inductive PickOutcome where
  | canceled
  | picked (a : PickedAsset)
  deriving Repr, DecidableEq

/-- An asset as returned by `DocumentPicker.getDocumentAsync`. -/
structure DocAsset where
  uri : String
  name : String
  size : Option JSNumber
  mimeType : Option String
  deriving Repr, DecidableEq

/-- Outcome of a document-picker call that did not reject. -/
inductive DocOutcome where
  | canceled
  | picked (a : DocAsset)
  deriving Repr, DecidableEq

/-- A fix from `Location.getCurrentPositionAsync`. -/
structure LocFix where
  latitude : JSNumber
  longitude : JSNumber
  accuracy : Option JSNumber
  altitude : Option JSNumber
  heading : Option JSNumber
  speed : Option JSNumber
  timestamp : JSNumber
  deriving Repr, DecidableEq

/-- Result of `FileSystem.downloadAsync`. -/
structure DownloadRes where
  uri : String
  status : JSNumber
  deriving Repr, DecidableEq

/-- Asset created by `MediaLibrary.createAssetAsync`. -/
structure CreatedAsset where
  id : String
  uri : String
  deriving Repr, DecidableEq

/-- Device info assembled by `handleGetDeviceInfo` from `Platform`. -/
structure DeviceInfo where
  platform : String
  version : String
  isDevice : Bool
  deriving Repr, DecidableEq

/-- Oracle for the native world: one field per awaited platform call,
giving the outcome that call produces in the scenario being considered.
`Except String α` models a promise that either resolves with `α` or
rejects with an error whose `.message` is the given string. -/
structure Env where
  cameraStatus : String
  micStatus : String
  locationStatus : String
  mediaStatus : String
  /-- some permission-request promise rejects, so the `Promise.all` in
  `requestPermissions` rejects and its `catch` returns `false`. -/
  permRequestThrows : Bool
  cameraLaunch : Except String PickOutcome
  imageLibraryLaunch : Except String PickOutcome
  documentPick : Except String DocOutcome
  recPrepare : Except String Unit
  recStart : Except String Unit
  recStopUnload : Except String Unit
  recUri : Option String
  recDurationMillis : Option Nat
  locationFix : Except String LocFix
  downloadRun : Except String DownloadRes
  sharingAvailable : Except String Bool
  shareRun : Except String Unit
  createAsset : Except String CreatedAsset
  updateUserInfoRun : Except String Unit
  platformOS : String
  platformVersion : String

/-- Message text standing in for the TypeError a JS destructuring of
`undefined` throws (`const (...) = data` with `data` absent). -/
def destructureErr : String := "Cannot destructure property of undefined"

/-- The fields of `message.data` that some native handler reads. A JS
object may lack any of them, hence every field is optional. -/
structure Payload where
  id : Option String := none
  permissions : Option (List String) := none
  url : Option String := none
  fileName : Option String := none
  uri : Option String := none
  mimeType : Option String := none
  title : Option String := none
  message : Option String := none
  buttons : Option (List String) := none
  pattern : Option (List Nat) := none
  userId : Option String := none
  userEmail : Option String := none
  userToken : Option String := none
  deriving Repr, DecidableEq

/-- The wire envelope (`BridgeMessage` in WebViewBridge.tsx). At runtime
an inbound JS object can lack `type`, `data` or `id`, so all three are
optional here even though the TS interface declares `type` required. -/
structure BridgeMessage where
  type : Option String := none
  data : Option Payload := none
  id : Option String := none
  deriving Repr, DecidableEq

/-- Union of the response-`data` object shapes the handlers send back. -/
structure OutData where
  success : Option Bool := none
  error : Option String := none
  type : Option String := none
  granted : Option Bool := none
  permissions : Option (List String) := none
  uri : Option String := none
  width : Option JSNumber := none
  height : Option JSNumber := none
  fileName : Option String := none
  fileSize : Option JSNumber := none
  name : Option String := none
  size : Option JSNumber := none
  mimeType : Option String := none
  duration : Option Nat := none
  latitude : Option JSNumber := none
  longitude : Option JSNumber := none
  accuracy : Option JSNumber := none
  altitude : Option JSNumber := none
  heading : Option JSNumber := none
  speed : Option JSNumber := none
  timestamp : Option JSNumber := none
  status : Option JSNumber := none
  assetId : Option String := none
  deviceInfo : Option DeviceInfo := none
  userId : Option String := none
  userEmail : Option String := none
  url : Option String := none
  deriving Repr, DecidableEq

/-- An envelope delivered to the page via `sendToWebView`. -/
structure SentMessage where
  type : String
  data : OutData
  id : Option String := none
  deriving Repr, DecidableEq

/-- Observable native actions on the audio recorder, used to state that
recording is stopped only by the handler's own fixed timer. -/
inductive NativeAct where
  | audioStart
  | audioStopScheduled (delayMs : Nat)
  deriving Repr, DecidableEq

/-- One arm of the `switch (permission)` inside `requestPermissions`:
whether requesting the named permission kind reports `granted`.
Any other kind falls to the `default: return false` arm. -/
def permissionGrant (env : Env) (p : String) : Bool :=
  if p = "camera" then env.cameraStatus == "granted"
  else if p = "microphone" then env.micStatus == "granted"
  else if p = "location" then env.locationStatus == "granted"
  else if p = "media_library" then env.mediaStatus == "granted"
  else false

/-- `requestPermissions(permissions)` — identical code in
`WebViewBridge.requestPermissions` and `MediaService.requestPermissions`:
`Promise.all` over the individual requests, then `results.every`; the
surrounding `try/catch` turns any rejection (including `permissions`
being `undefined`) into `false`. -/
def requestPermissions (env : Env) (permissions : Option (List String)) : Bool :=
  match permissions with
  | none => false
  | some ps => if env.permRequestThrows then false else ps.all (permissionGrant env)

namespace WebViewBridge

/-- `generateMessageId()`: a template string over the pre-incremented
instance counter `++this.messageId` and `Date.now()`. -/
def generateMessageId (messageId : Nat) (now : Nat) : String :=
  "msg_" ++ Nat.repr messageId ++ "_" ++ Nat.repr now

/-- The id produced by the i-th call to `generateMessageId` in one
session whose `Date.now()` readings are `ts`: the instance counter
starts at 0 and is pre-incremented, so call i uses counter `i + 1`. -/
def nthMessageId (ts : Nat → Nat) (i : Nat) : String :=
  generateMessageId (i + 1) (ts i)

/-- `handleRequestPermissions` (no internal try/catch; destructuring
`data` throws when it is `undefined`). -/
def handleRequestPermissions (env : Env) (data : Option Payload) :
    Except String (List SentMessage) :=
  match data with
  | none => .error destructureErr
  | some d =>
    let granted := requestPermissions env d.permissions
    .ok [{ type := "PERMISSIONS_RESULT",
           data := { granted := some granted, permissions := d.permissions },
           id := d.id }]

/-- `handleTakePhoto`: permission gate, then `launchCameraAsync`; its
`catch` turns a rejection into a failure response. -/
def handleTakePhoto (env : Env) (data : Option Payload) :
    Except String (List SentMessage) :=
  match data with
  | none => .error destructureErr
  | some d =>
    if requestPermissions env (some ["camera"]) = false then
      .ok [{ type := "PHOTO_RESULT",
             data := { success := some false, error := some "Camera permission denied" },
             id := d.id }]
    else
      match env.cameraLaunch with
      | .error e =>
        .ok [{ type := "PHOTO_RESULT",
               data := { success := some false, error := some e }, id := d.id }]
      | .ok .canceled =>
        .ok [{ type := "PHOTO_RESULT",
               data := { success := some false, error := some "Photo capture cancelled" },
               id := d.id }]
      | .ok (.picked a) =>
        .ok [{ type := "PHOTO_RESULT",
               data := { success := some true, uri := some a.uri, width := some a.width,
                         height := some a.height, type := a.type, fileName := a.fileName,
                         fileSize := a.fileSize },
               id := d.id }]

/-- `handlePickImage`: same shape as `handleTakePhoto` over the media
library picker. -/
def handlePickImage (env : Env) (data : Option Payload) :
    Except String (List SentMessage) :=
  match data with
  | none => .error destructureErr
  | some d =>
    if requestPermissions env (some ["media_library"]) = false then
      .ok [{ type := "IMAGE_PICK_RESULT",
             data := { success := some false, error := some "Media library permission denied" },
             id := d.id }]
    else
      match env.imageLibraryLaunch with
      | .error e =>
        .ok [{ type := "IMAGE_PICK_RESULT",
               data := { success := some false, error := some e }, id := d.id }]
      | .ok .canceled =>
        .ok [{ type := "IMAGE_PICK_RESULT",
               data := { success := some false, error := some "Image selection cancelled" },
               id := d.id }]
      | .ok (.picked a) =>
        .ok [{ type := "IMAGE_PICK_RESULT",
               data := { success := some true, uri := some a.uri, width := some a.width,
                         height := some a.height, type := a.type, fileName := a.fileName,
                         fileSize := a.fileSize },
               id := d.id }]

/-- The delay of the `setTimeout` inside `handleRecordAudio` that stops
the recording: 10000 ms, fixed in the source. -/
def recordAudioTimerMs : Nat := 10000

/-- `handleRecordAudio`: permission gate, prepare and start a recording,
then schedule a fixed 10-second timer whose callback stops the
recording and sends the response (duration hardcoded to 10000). The
returned action list records what happened to the recorder. -/
def handleRecordAudio (env : Env) (data : Option Payload) :
    Except String (List SentMessage × List NativeAct) :=
  match data with
  | none => .error destructureErr
  | some d =>
    if requestPermissions env (some ["microphone"]) = false then
      .ok ([{ type := "AUDIO_RECORD_RESULT",
              data := { success := some false, error := some "Microphone permission denied" },
              id := d.id }], [])
    else
      match env.recPrepare with
      | .error e =>
        .ok ([{ type := "AUDIO_RECORD_RESULT",
                data := { success := some false, error := some e }, id := d.id }], [])
      | .ok _ =>
        match env.recStart with
        | .error e =>
          .ok ([{ type := "AUDIO_RECORD_RESULT",
                  data := { success := some false, error := some e }, id := d.id }], [])
        | .ok _ =>
          match env.recStopUnload with
          | .error e =>
            .ok ([{ type := "AUDIO_RECORD_RESULT",
                    data := { success := some false, error := some e }, id := d.id }],
                 [.audioStart, .audioStopScheduled recordAudioTimerMs])
          | .ok _ =>
            .ok ([{ type := "AUDIO_RECORD_RESULT",
                    data := { success := some true, uri := env.recUri,
                              duration := some 10000 },
                    id := d.id }],
                 [.audioStart, .audioStopScheduled recordAudioTimerMs])

/-- `handleGetLocation`. -/
def handleGetLocation (env : Env) (data : Option Payload) :
    Except String (List SentMessage) :=
  match data with
  | none => .error destructureErr
  | some d =>
    if requestPermissions env (some ["location"]) = false then
      .ok [{ type := "LOCATION_RESULT",
             data := { success := some false, error := some "Location permission denied" },
             id := d.id }]
    else
      match env.locationFix with
      | .error e =>
        .ok [{ type := "LOCATION_RESULT",
               data := { success := some false, error := some e }, id := d.id }]
      | .ok fix =>
        .ok [{ type := "LOCATION_RESULT",
               data := { success := some true, latitude := some fix.latitude,
                         longitude := some fix.longitude, accuracy := fix.accuracy,
                         altitude := fix.altitude, heading := fix.heading,
                         speed := fix.speed, timestamp := some fix.timestamp },
               id := d.id }]

/-- `handleDownloadFile` (the target path construction feeds only
`downloadAsync`, whose outcome `Env.downloadRun` already fixes). -/
def handleDownloadFile (env : Env) (data : Option Payload) :
    Except String (List SentMessage) :=
  match data with
  | none => .error destructureErr
  | some d =>
    match env.downloadRun with
    | .error e =>
      .ok [{ type := "DOWNLOAD_RESULT",
             data := { success := some false, error := some e }, id := d.id }]
    | .ok res =>
      .ok [{ type := "DOWNLOAD_RESULT",
             data := { success := some true, uri := some res.uri,
                       fileName := d.fileName, status := some res.status },
             id := d.id }]

/-- `handleSaveToGallery`. -/
def handleSaveToGallery (env : Env) (data : Option Payload) :
    Except String (List SentMessage) :=
  match data with
  | none => .error destructureErr
  | some d =>
    if requestPermissions env (some ["media_library"]) = false then
      .ok [{ type := "SAVE_GALLERY_RESULT",
             data := { success := some false, error := some "Media library permission denied" },
             id := d.id }]
    else
      match env.createAsset with
      | .error e =>
        .ok [{ type := "SAVE_GALLERY_RESULT",
               data := { success := some false, error := some e }, id := d.id }]
      | .ok a =>
        .ok [{ type := "SAVE_GALLERY_RESULT",
               data := { success := some true, assetId := some a.id, uri := some a.uri },
               id := d.id }]

/-- `handleShareFile`. -/
def handleShareFile (env : Env) (data : Option Payload) :
    Except String (List SentMessage) :=
  match data with
  | none => .error destructureErr
  | some d =>
    match env.sharingAvailable with
    | .error e =>
      .ok [{ type := "SHARE_RESULT",
             data := { success := some false, error := some e }, id := d.id }]
    | .ok false =>
      .ok [{ type := "SHARE_RESULT",
             data := { success := some false, error := some "Sharing not available on this device" },
             id := d.id }]
    | .ok true =>
      match env.shareRun with
      | .error e =>
        .ok [{ type := "SHARE_RESULT",
               data := { success := some false, error := some e }, id := d.id }]
      | .ok _ =>
        .ok [{ type := "SHARE_RESULT", data := { success := some true }, id := d.id }]

/-- `handlePickDocument` (no permission gate in the source). -/
def handlePickDocument (env : Env) (data : Option Payload) :
    Except String (List SentMessage) :=
  match data with
  | none => .error destructureErr
  | some d =>
    match env.documentPick with
    | .error e =>
      .ok [{ type := "DOCUMENT_PICK_RESULT",
             data := { success := some false, error := some e }, id := d.id }]
    | .ok .canceled =>
      .ok [{ type := "DOCUMENT_PICK_RESULT",
             data := { success := some false, error := some "Document selection cancelled" },
             id := d.id }]
    | .ok (.picked a) =>
      .ok [{ type := "DOCUMENT_PICK_RESULT",
             data := { success := some true, uri := some a.uri, name := some a.name,
                       size := a.size, mimeType := a.mimeType },
             id := d.id }]

/-- `handleVibrate`: `Vibration.vibrate` does not reject, so the branch
on `Platform.OS` produces the same success response either way. -/
def handleVibrate (env : Env) (data : Option Payload) :
    Except String (List SentMessage) :=
  match data with
  | none => .error destructureErr
  | some d =>
    if env.platformOS = "ios" then
      .ok [{ type := "VIBRATE_RESULT", data := { success := some true }, id := d.id }]
    else
      .ok [{ type := "VIBRATE_RESULT", data := { success := some true }, id := d.id }]

/-- `handleShowAlert`: `Alert.alert` does not reject. -/
def handleShowAlert (_env : Env) (data : Option Payload) :
    Except String (List SentMessage) :=
  match data with
  | none => .error destructureErr
  | some d =>
    .ok [{ type := "ALERT_RESULT", data := { success := some true }, id := d.id }]

/-- `handleGetDeviceInfo`. -/
def handleGetDeviceInfo (env : Env) (data : Option Payload) :
    Except String (List SentMessage) :=
  match data with
  | none => .error destructureErr
  | some d =>
    .ok [{ type := "DEVICE_INFO_RESULT",
           data := { success := some true,
                     deviceInfo := some { platform := env.platformOS,
                                          version := env.platformVersion,
                                          isDevice := true } },
           id := d.id }]

/-- `handleUpdateUserInfo`: forwards to the push-notification service;
a rejection is caught and reported as `USER_INFO_UPDATE_ERROR`. -/
def handleUpdateUserInfo (env : Env) (data : Option Payload) :
    Except String (List SentMessage) :=
  match data with
  | none => .error destructureErr
  | some d =>
    match env.updateUserInfoRun with
    | .error e =>
      .ok [{ type := "USER_INFO_UPDATE_ERROR",
             data := { success := some false, error := some e }, id := d.id }]
    | .ok _ =>
      .ok [{ type := "USER_INFO_UPDATED",
             data := { success := some true, userId := d.userId, userEmail := d.userEmail },
             id := d.id }]

/-- `handleOpenUrl`: always responds success with the echoed url. -/
def handleOpenUrl (_env : Env) (data : Option Payload) :
    Except String (List SentMessage) :=
  match data with
  | none => .error destructureErr
  | some d =>
    .ok [{ type := "OPEN_URL_RESULT",
           data := { success := some true, url := d.url }, id := d.id }]

/-- The message types with a `case` arm in `handleMessage`'s switch. -/
def registeredMessageTypes : List String :=
  ["REQUEST_PERMISSIONS", "TAKE_PHOTO", "PICK_IMAGE", "RECORD_AUDIO",
   "GET_LOCATION", "DOWNLOAD_FILE", "SAVE_TO_GALLERY", "SHARE_FILE",
   "PICK_DOCUMENT", "VIBRATE", "SHOW_ALERT", "GET_DEVICE_INFO",
   "UPDATE_USER_INFO", "OPEN_URL"]

/-- Lift a handler that never touches the audio recorder to the common
result type of the dispatcher. -/
def withNoActs (r : Except String (List SentMessage)) :
    Except String (List SentMessage × List NativeAct) :=
  r.map (fun sends => (sends, []))

/-- The body of `handleMessage`'s `try` block: the switch over
`message.type` (a JS switch compares sequentially; an absent `type`
matches no case and reaches `default`, which sends the unknown-type
ERROR response with the envelope's own id). A `.error` is a JS
exception escaping the switch into `handleMessage`'s catch. -/
def handleMessageExc (env : Env) (m : BridgeMessage) :
    Except String (List SentMessage × List NativeAct) :=
  if m.type = some "REQUEST_PERMISSIONS" then withNoActs (handleRequestPermissions env m.data)
  else if m.type = some "TAKE_PHOTO" then withNoActs (handleTakePhoto env m.data)
  else if m.type = some "PICK_IMAGE" then withNoActs (handlePickImage env m.data)
  else if m.type = some "RECORD_AUDIO" then handleRecordAudio env m.data
  else if m.type = some "GET_LOCATION" then withNoActs (handleGetLocation env m.data)
  else if m.type = some "DOWNLOAD_FILE" then withNoActs (handleDownloadFile env m.data)
  else if m.type = some "SAVE_TO_GALLERY" then withNoActs (handleSaveToGallery env m.data)
  else if m.type = some "SHARE_FILE" then withNoActs (handleShareFile env m.data)
  else if m.type = some "PICK_DOCUMENT" then withNoActs (handlePickDocument env m.data)
  else if m.type = some "VIBRATE" then withNoActs (handleVibrate env m.data)
  else if m.type = some "SHOW_ALERT" then withNoActs (handleShowAlert env m.data)
  else if m.type = some "GET_DEVICE_INFO" then withNoActs (handleGetDeviceInfo env m.data)
  else if m.type = some "UPDATE_USER_INFO" then withNoActs (handleUpdateUserInfo env m.data)
  else if m.type = some "OPEN_URL" then withNoActs (handleOpenUrl env m.data)
  else
    .ok ([{ type := "ERROR",
            data := { error := some "Unknown message type", type := m.type },
            id := m.id }], [])

/-- `handleMessage`: the switch wrapped in the outer `try/catch`; a JS
exception escaping a handler is caught here and answered with an ERROR
envelope carrying the thrown message and the envelope's top-level id.
Dispatch therefore never throws. -/
def handleMessage (env : Env) (m : BridgeMessage) :
    List SentMessage × List NativeAct :=
  match handleMessageExc env m with
  | .ok out => out
  | .error e =>
    ([{ type := "ERROR", data := { error := some e, type := m.type }, id := m.id }], [])

end WebViewBridge

namespace MediaService

/-- The two private fields of the `MediaService` class that carry the
recording session: `audioRecording` (the `Audio.Recording` object or
`null`) and the `isRecording` flag. -/
structure MediaState where
  audioRecording : Option Unit := none
  isRecording : Bool := false
  deriving Repr, DecidableEq

/-- `MediaResult` as declared in the source (success plus optional
fields). `duration` is reported in seconds (`durationMillis / 1000`);
ℚ stands in for the JS float quotient. -/
structure MediaResult where
  success : Bool
  uri : Option String := none
  width : Option JSNumber := none
  height : Option JSNumber := none
  type : Option String := none
  fileName : Option String := none
  fileSize : Option JSNumber := none
  duration : Option ℚ := none
  error : Option String := none
  deriving Repr, DecidableEq

/-- `MediaService.startAudioRecording`: permission gate, then the
`isRecording` guard, then create/prepare/start the recording. A
rejection of prepare/start is caught and reported, leaving the
partially-updated fields exactly as the source does. -/
def startAudioRecording (env : Env) (s : MediaState) : MediaState × MediaResult :=
  if requestPermissions env (some ["microphone"]) = false then
    (s, { success := false, error := some "Microphone permission denied" })
  else if s.isRecording then
    (s, { success := false, error := some "Already recording" })
  else
    let s1 : MediaState := { s with audioRecording := some () }
    match env.recPrepare with
    | .error e => (s1, { success := false, error := some e })
    | .ok _ =>
      match env.recStart with
      | .error e => (s1, { success := false, error := some e })
      | .ok _ => ({ s1 with isRecording := true }, { success := true })

/-- `MediaService.stopAudioRecording`: the `!audioRecording ||
!isRecording` guard, then stop-and-unload; on success both fields are
reset and the result carries the uri and `durationMillis / 1000`
(`durationMillis` being falsy — absent or 0 — yields `undefined`). -/
def stopAudioRecording (env : Env) (s : MediaState) : MediaState × MediaResult :=
  if s.audioRecording = none ∨ s.isRecording = false then
    (s, { success := false, error := some "No active recording" })
  else
    match env.recStopUnload with
    | .error e => (s, { success := false, error := some e })
    | .ok _ =>
      ({ audioRecording := none, isRecording := false },
       { success := true,
         uri := env.recUri,
         duration := match env.recDurationMillis with
                     | some d => if d ≠ 0 then some ((d : ℚ) / 1000) else none
                     | none => none })

end MediaService

namespace WebViewContainer

/-- The `useState` pieces of `WebViewContainer` that the load / retry /
readiness logic touches, plus `notifyCount`, the number of times
`onWebViewReady()` has been invoked (the observable "ready"
notification to the overlay controller). Initial values are the
`useState` initializers. -/
structure ContainerState where
  canGoBack : Bool := false
  isLoading : Bool := true
  hasError : Bool := false
  retryCount : Nat := 0
  isWebViewMounted : Bool := false
  isWebViewReady : Bool := false
  notifyCount : Nat := 0
  deriving Repr, DecidableEq

/-- The dependency array of the ready-notification `useEffect`
(`isWebViewMounted`, `isLoading`, `hasError`; the callback identity is
stable). -/
def readyDeps (s : ContainerState) : Bool × Bool × Bool :=
  (s.isWebViewMounted, s.isLoading, s.hasError)

/-- The ready-notification effect: after a state update it re-runs when
its dependencies changed, and when `isWebViewMounted && !isLoading &&
!hasError` it sets `isWebViewReady` and calls `onWebViewReady()` —
note the source checks no once-guard here. -/
def readyEffect (prev next : ContainerState) : ContainerState :=
  if readyDeps prev ≠ readyDeps next ∧
     next.isWebViewMounted = true ∧ next.isLoading = false ∧ next.hasError = false then
    { next with isWebViewReady := true, notifyCount := next.notifyCount + 1 }
  else next

/-- The backoff of the auto-retry `setTimeout` in `handleError`: 2000 ms. -/
def autoRetryBackoffMs : Nat := 2000

/-- The loading-timeout ceiling (`setTimeout` in the loading effect): 15000 ms. -/
def loadingTimeoutMs : Nat := 15000

/-- What `handleError` decides to do besides updating state: schedule an
automatic reload after the fixed backoff, or surface the manual-retry
alert. -/
inductive RetryAction where
  | autoRetryScheduled (delayMs : Nat)
  | manualPrompt
  deriving Repr, DecidableEq

/-- `handleError`: set `hasError`/`isLoading`, then either schedule an
auto-retry (when `retryCount < 3`) or show the manual-retry alert. -/
def handleError (s : ContainerState) : ContainerState × RetryAction :=
  let s' := readyEffect s { s with hasError := true, isLoading := false }
  if s.retryCount < 3 then (s', .autoRetryScheduled autoRetryBackoffMs)
  else (s', .manualPrompt)

/-- The auto-retry timer callback: increment `retryCount`, clear the
error, re-enter loading and reload the page. -/
def autoRetryFire (s : ContainerState) : ContainerState :=
  readyEffect s { s with retryCount := s.retryCount + 1, hasError := false, isLoading := true }

/-- The manual "Retry" button of the ceiling alert: reset `retryCount`
to 0, clear the error, re-enter loading and reload. -/
def manualRetryPress (s : ContainerState) : ContainerState :=
  readyEffect s { s with retryCount := 0, hasError := false, isLoading := true }

/-- `handleLoadStart`. -/
def handleLoadStart (s : ContainerState) : ContainerState :=
  readyEffect s { s with isLoading := true, hasError := false }

/-- `handleLoadEnd`: clear `isLoading` (running the ready effect), then
the deferred 500 ms check, which is the one place guarded by
`!isWebViewReady`. -/
def handleLoadEnd (s : ContainerState) : ContainerState :=
  let s1 := readyEffect s { s with isLoading := false }
  if s1.isWebViewMounted = true ∧ s1.hasError = false ∧ s1.isWebViewReady = false then
    { s1 with isWebViewReady := true, notifyCount := s1.notifyCount + 1 }
  else s1

/-- The 100 ms mount-detection timer callback. -/
def mountTimerFire (s : ContainerState) : ContainerState :=
  readyEffect s { s with isWebViewMounted := true }

/-- The 15-second loading-timeout callback: if still loading, force a
load end with the error flag set. -/
def loadingTimeoutFire (s : ContainerState) : ContainerState :=
  if s.isLoading then readyEffect s { s with isLoading := false, hasError := true }
  else s

/-- The external signals the container reacts to in one session. -/
inductive PageEvent where
  | mountTimerFire
  | loadStart
  | loadEnd
  | errorSignal
  | autoRetryFire
  | manualRetry
  | loadingTimeoutFire
  deriving Repr, DecidableEq

/-- One step of the container machine, returning the retry decision
`handleError` takes when the event is a load error. -/
def containerStep (s : ContainerState) : PageEvent → ContainerState × Option RetryAction
  | .mountTimerFire => (mountTimerFire s, none)
  | .loadStart => (handleLoadStart s, none)
  | .loadEnd => (handleLoadEnd s, none)
  | .errorSignal => ((handleError s).1, some (handleError s).2)
  | .autoRetryFire => (autoRetryFire s, none)
  | .manualRetry => (manualRetryPress s, none)
  | .loadingTimeoutFire => (loadingTimeoutFire s, none)

/-- Run a sequence of signals, collecting the retry decisions. -/
def containerRun (s : ContainerState) : List PageEvent → ContainerState × List RetryAction
  | [] => (s, [])
  | e :: es =>
    let step := containerStep s e
    let rest := containerRun step.1 es
    (rest.1, step.2.toList ++ rest.2)

/-- The state at mount (the `useState` initializers). -/
def initialContainerState : ContainerState := {}

/-- A raw `onMessage` event from the page: either `JSON.parse` throws,
or it yields a value read through the `BridgeMessage` cast. -/
inductive RawEvent where
  | unparseable
  | parsed (m : BridgeMessage)
  deriving Repr, DecidableEq

/-- `handleUserAuth`: reads the user fields off `userData` (throwing on
`undefined`) and routes an `UPDATE_USER_INFO` envelope through the
bridge when one is mounted. -/
def handleUserAuth (env : Env) (bridgePresent : Bool) (userData : Option Payload) :
    Except String (List SentMessage × List NativeAct) :=
  match userData with
  | none => .error destructureErr
  | some d =>
    if bridgePresent then
      .ok (WebViewBridge.handleMessage env
        { type := some "UPDATE_USER_INFO",
          data := some { userId := d.userId, userEmail := d.userEmail,
                         userToken := d.userToken },
          id := none })
    else .ok ([], [])

/-- `WebViewContainer.handleMessage`: `JSON.parse` inside `try`; a parse
failure is caught and only logged (nothing is sent back). A parsed
message is either the special `USER_AUTH` notification or is handed to
`bridge.handleMessage` when the bridge is mounted. -/
def handleMessage (env : Env) (bridgePresent : Bool) (ev : RawEvent) :
    List SentMessage × List NativeAct :=
  match ev with
  | .unparseable => ([], [])
  | .parsed m =>
    if m.type = some "USER_AUTH" then
      match handleUserAuth env bridgePresent m.data with
      | .ok out => out
      | .error _ => ([], [])
    else
      if bridgePresent then WebViewBridge.handleMessage env m else ([], [])

end WebViewContainer

namespace RootLayout

/-- The maximum-splash fallback delay in `RootLayout`: 8000 ms. -/
def maxSplashTimeoutMs : Nat := 8000

/-- The splash-overlay controller state in `RootLayout`: whether the
custom splash is shown, and whether the maximum-wait timer is still
pending (not fired, not cleared). -/
structure SplashState where
  showSplash : Bool := true
  maxTimerActive : Bool := true
  deriving Repr, DecidableEq

/-- The two signals the splash controller reacts to. -/
inductive SplashEvent where
  | webViewReady
  | maxTimeoutFire
  deriving Repr, DecidableEq

/-- `handleWebViewReady` hides the splash and clears the timer; the
maximum-wait timer callback hides the splash unconditionally (it can
only fire while still pending). -/
def splashStep (s : SplashState) : SplashEvent → SplashState
  | .webViewReady => { showSplash := false, maxTimerActive := false }
  | .maxTimeoutFire =>
    if s.maxTimerActive then { showSplash := false, maxTimerActive := false } else s

/-- Run a sequence of splash signals. -/
def splashRun (s : SplashState) : List SplashEvent → SplashState
  | [] => s
  | e :: es => splashRun (splashStep s e) es

end RootLayout

namespace BridgeScript

/-- The id built by `ReactNativeBridge.sendMessage` in the injected page
script: `Date.now()` plus a random base-36 suffix — no counter. -/
def sendMessageId (now : Nat) (rand : String) : String :=
  "msg_" ++ Nat.repr now ++ "_" ++ rand

/-- The id produced by the i-th page-side call in a session whose
`Date.now()` readings are `ts` and whose random draws are `rand`. -/
def nthMessageId (ts : Nat → Nat) (rand : Nat → String) (i : Nat) : String :=
  sendMessageId (ts i) (rand i)

end BridgeScript

/-- The decimal digit list of `n`, most significant first; reference
rendering used to reason about `Nat.repr`. -/
def digitsAux (n : Nat) : List Char :=
  if n < 10 then [Nat.digitChar n]
  else digitsAux (n / 10) ++ [Nat.digitChar (n % 10)]
decreasing_by exact Nat.div_lt_self (by omega) (by omega)

/-- Numeric value of a decimal digit character. -/
def digitVal (c : Char) : Nat := c.toNat - 48

/-- Value of a most-significant-first decimal digit list. -/
def digitsVal (l : List Char) : Nat :=
  l.foldl (fun a c => 10 * a + digitVal c) 0

/-- A fully concrete native-world scenario used by the witnesses: every
permission granted, recording calls succeed, the camera launch rejects
with "Camera unavailable". -/
def env0 : Env :=
  { cameraStatus := "granted"
    micStatus := "granted"
    locationStatus := "granted"
    mediaStatus := "granted"
    permRequestThrows := false
    cameraLaunch := .error "Camera unavailable"
    imageLibraryLaunch := .ok .canceled
    documentPick := .ok .canceled
    recPrepare := .ok ()
    recStart := .ok ()
    recStopUnload := .ok ()
    recUri := some "file:///rec/recording.m4a"
    recDurationMillis := some 10000
    locationFix := .error "Location unavailable"
    downloadRun := .error "Network request failed"
    sharingAvailable := .ok true
    shareRun := .ok ()
    createAsset := .error "Asset creation failed"
    updateUserInfoRun := .ok ()
    platformOS := "android"
    platformVersion := "14" }

/-- env0 with the location permission denied. -/
def envDenyLocation : Env := { env0 with locationStatus := "denied" }

/-- A TAKE_PHOTO envelope as the injected page script builds it: the
correlation id at the top level of the envelope, not inside `data`. -/
def takePhotoEnvelope : BridgeMessage :=
  { type := some "TAKE_PHOTO", data := some {}, id := some "msg_1759276800000_k3j9x1q2z" }

/-- An envelope whose type matches no switch case. -/
def unknownEnvelope : BridgeMessage :=
  { type := some "FROBNICATE", data := none, id := some "msg_7" }

/-- A parsed inbound message lacking the `type` field. -/
def noTypeMessage : BridgeMessage :=
  { type := none, data := some {}, id := some "msg_42" }

/-- A MediaService state with a recording in progress. -/
def recordingState : MediaService.MediaState :=
  { audioRecording := some (), isRecording := true }

/-- The idle MediaService state. -/
def idleState : MediaService.MediaState := {}

/-- A container state with two consumed retries. -/
def retryState2 : WebViewContainer.ContainerState := { retryCount := 2 }

/-- A container state at the retry ceiling. -/
def retryState3 : WebViewContainer.ContainerState := { retryCount := 3 }

/-- The splash state while the maximum-wait timer is pending. -/
def splashPending : RootLayout.SplashState := { showSplash := true, maxTimerActive := true }

/-- The splash state after dismissal. -/
def splashHidden : RootLayout.SplashState := { showSplash := false, maxTimerActive := false }

/- ------------------------------------------------------------------ -/
/- Helper lemmas -/
/- ------------------------------------------------------------------ -/

theorem digitChar_ne_underscore {k : Nat} (hk : k < 10) : Nat.digitChar k ≠ '_' := by
  interval_cases k <;> decide

theorem digitVal_digitChar {k : Nat} (hk : k < 10) : digitVal (Nat.digitChar k) = k := by
  interval_cases k <;> decide

theorem toDigitsCore_eq_digitsAux :
    ∀ (fuel n : Nat) (acc : List Char), n < fuel →
      Nat.toDigitsCore 10 fuel n acc = digitsAux n ++ acc := by
  intro fuel
  induction fuel with
  | zero => intro n acc h; omega
  | succ f ih =>
    intro n acc h
    rw [digitsAux]
    by_cases h10 : n < 10
    · have hdiv : n / 10 = 0 := Nat.div_eq_of_lt h10
      simp [Nat.toDigitsCore, hdiv, Nat.mod_eq_of_lt h10, if_pos h10]
    · have hdiv : n / 10 ≠ 0 := by
        have : 10 ≤ n := by omega
        have := (Nat.one_le_div_iff (by omega : 0 < 10)).mpr this
        omega
      have hlt : n / 10 < n := Nat.div_lt_self (by omega) (by omega)
      rw [if_neg h10]
      simp only [Nat.toDigitsCore, if_neg hdiv]
      rw [ih (n / 10) (Nat.digitChar (n % 10) :: acc) (by omega)]
      simp [List.append_assoc]

theorem repr_data (n : Nat) : (Nat.repr n).data = digitsAux n := by
  show (List.asString (Nat.toDigits 10 n)).data = digitsAux n
  rw [Nat.toDigits, toDigitsCore_eq_digitsAux (n + 1) n [] (by omega)]
  simp [List.asString]

theorem digitsVal_append_singleton (l : List Char) (c : Char) :
    digitsVal (l ++ [c]) = 10 * digitsVal l + digitVal c := by
  simp [digitsVal, List.foldl_append]

theorem digitsVal_digitsAux : ∀ n : Nat, digitsVal (digitsAux n) = n := by
  intro n
  induction n using Nat.strong_induction_on with
  | _ n ih =>
    rw [digitsAux]
    by_cases h10 : n < 10
    · rw [if_pos h10]
      simp [digitsVal, digitVal_digitChar h10]
    · rw [if_neg h10]
      have hlt : n / 10 < n := Nat.div_lt_self (by omega) (by omega)
      rw [digitsVal_append_singleton, ih (n / 10) hlt,
        digitVal_digitChar (Nat.mod_lt n (by omega))]
      omega

theorem digitsAux_inj {a b : Nat} (h : digitsAux a = digitsAux b) : a = b := by
  have ha := digitsVal_digitsAux a
  have hb := digitsVal_digitsAux b
  rw [← ha, ← hb, h]

theorem mem_digitsAux_ne_underscore : ∀ n : Nat, ∀ c ∈ digitsAux n, c ≠ '_' := by
  intro n
  induction n using Nat.strong_induction_on with
  | _ n ih =>
    intro c hc
    rw [digitsAux] at hc
    by_cases h10 : n < 10
    · rw [if_pos h10] at hc
      simp at hc
      subst hc
      exact digitChar_ne_underscore h10
    · rw [if_neg h10] at hc
      rcases List.mem_append.mp hc with h | h
      · exact ih (n / 10) (Nat.div_lt_self (by omega) (by omega)) c h
      · simp at h
        subst h
        exact digitChar_ne_underscore (Nat.mod_lt n (by omega))

theorem append_underscore_inj :
    ∀ (l1 l2 r1 r2 : List Char),
      (∀ c ∈ l1, c ≠ '_') → (∀ c ∈ l2, c ≠ '_') →
      l1 ++ '_' :: r1 = l2 ++ '_' :: r2 → l1 = l2 ∧ r1 = r2 := by
  intro l1
  induction l1 with
  | nil =>
    intro l2 r1 r2 _ h2 heq
    cases l2 with
    | nil => simpa using heq
    | cons b t =>
      simp only [List.nil_append, List.cons_append, List.cons.injEq] at heq
      exact absurd heq.1.symm (h2 b (by simp))
  | cons a t ih =>
    intro l2 r1 r2 h1 h2 heq
    cases l2 with
    | nil =>
      simp only [List.nil_append, List.cons_append, List.cons.injEq] at heq
      exact absurd heq.1 (h1 a (by simp))
    | cons b t2 =>
      simp only [List.cons_append, List.cons.injEq] at heq
      obtain ⟨hab, hrest⟩ := heq
      obtain ⟨ht, hr⟩ :=
        ih t2 r1 r2 (fun c hc => h1 c (by simp [hc])) (fun c hc => h2 c (by simp [hc])) hrest
      exact ⟨by rw [hab, ht], hr⟩

theorem generateMessageId_inj {a b c d : Nat}
    (h : WebViewBridge.generateMessageId a b = WebViewBridge.generateMessageId c d) :
    a = c := by
  have hd := congrArg String.data h
  simp only [WebViewBridge.generateMessageId, String.data_append] at hd
  simp only [List.append_assoc, List.cons_append, List.nil_append, List.singleton_append,
    List.cons.injEq, true_and] at hd
  have h1 := append_underscore_inj (Nat.repr a).data (Nat.repr c).data
    (Nat.repr b).data (Nat.repr d).data
    (by rw [repr_data]; exact mem_digitsAux_ne_underscore a)
    (by rw [repr_data]; exact mem_digitsAux_ne_underscore c) hd
  apply digitsAux_inj
  rw [← repr_data, ← repr_data]
  exact h1.1

theorem readyEffect_retryCount (p n : WebViewContainer.ContainerState) :
    (WebViewContainer.readyEffect p n).retryCount = n.retryCount := by
  unfold WebViewContainer.readyEffect
  split <;> rfl

theorem readyEffect_isLoading (p n : WebViewContainer.ContainerState) :
    (WebViewContainer.readyEffect p n).isLoading = n.isLoading := by
  unfold WebViewContainer.readyEffect
  split <;> rfl

theorem readyEffect_hasError (p n : WebViewContainer.ContainerState) :
    (WebViewContainer.readyEffect p n).hasError = n.hasError := by
  unfold WebViewContainer.readyEffect
  split <;> rfl

theorem splashRun_stays_hidden :
    ∀ (evs : List RootLayout.SplashEvent) (s : RootLayout.SplashState),
      s.showSplash = false → (RootLayout.splashRun s evs).showSplash = false := by
  intro evs
  induction evs with
  | nil => intro s h; exact h
  | cons e es ih =>
    intro s h
    cases e with
    | webViewReady => exact ih _ rfl
    | maxTimeoutFire =>
      by_cases ht : s.maxTimerActive
      · exact ih _ (by simp [RootLayout.splashStep, ht])
      · exact ih _ (by simp [RootLayout.splashStep, ht, h])

theorem withNoActs_acts {r : Except String (List SentMessage)}
    {out : List SentMessage × List NativeAct}
    (h : WebViewBridge.withNoActs r = .ok out) : out.2 = [] := by
  cases r with
  | error e => simp [WebViewBridge.withNoActs, Except.map] at h
  | ok sends =>
    simp only [WebViewBridge.withNoActs, Except.map, Except.ok.injEq] at h
    rw [← h]

theorem handleRecordAudio_acts (env : Env) (data : Option Payload)
    (out : List SentMessage × List NativeAct)
    (h : WebViewBridge.handleRecordAudio env data = .ok out) :
    out.2 = [] ∨
    out.2 = [.audioStart, .audioStopScheduled WebViewBridge.recordAudioTimerMs] := by
  unfold WebViewBridge.handleRecordAudio at h
  repeat' (split at h)
  all_goals first
    | (injection h with h; subst h; simp)
    | simp at h

theorem noAudio_acts (env : Env) (m : BridgeMessage)
    (out : List SentMessage × List NativeAct)
    (hx : WebViewBridge.handleMessageExc env m = .ok out)
    (hA : m.type ≠ some "RECORD_AUDIO") : out.2 = [] := by
  unfold WebViewBridge.handleMessageExc at hx
  by_cases h1 : m.type = some "REQUEST_PERMISSIONS"
  · rw [if_pos h1] at hx; exact withNoActs_acts hx
  rw [if_neg h1] at hx
  by_cases h2 : m.type = some "TAKE_PHOTO"
  · rw [if_pos h2] at hx; exact withNoActs_acts hx
  rw [if_neg h2] at hx
  by_cases h3 : m.type = some "PICK_IMAGE"
  · rw [if_pos h3] at hx; exact withNoActs_acts hx
  rw [if_neg h3] at hx
  rw [if_neg hA] at hx
  by_cases h5 : m.type = some "GET_LOCATION"
  · rw [if_pos h5] at hx; exact withNoActs_acts hx
  rw [if_neg h5] at hx
  by_cases h6 : m.type = some "DOWNLOAD_FILE"
  · rw [if_pos h6] at hx; exact withNoActs_acts hx
  rw [if_neg h6] at hx
  by_cases h7 : m.type = some "SAVE_TO_GALLERY"
  · rw [if_pos h7] at hx; exact withNoActs_acts hx
  rw [if_neg h7] at hx
  by_cases h8 : m.type = some "SHARE_FILE"
  · rw [if_pos h8] at hx; exact withNoActs_acts hx
  rw [if_neg h8] at hx
  by_cases h9 : m.type = some "PICK_DOCUMENT"
  · rw [if_pos h9] at hx; exact withNoActs_acts hx
  rw [if_neg h9] at hx
  by_cases h10 : m.type = some "VIBRATE"
  · rw [if_pos h10] at hx; exact withNoActs_acts hx
  rw [if_neg h10] at hx
  by_cases h11 : m.type = some "SHOW_ALERT"
  · rw [if_pos h11] at hx; exact withNoActs_acts hx
  rw [if_neg h11] at hx
  by_cases h12 : m.type = some "GET_DEVICE_INFO"
  · rw [if_pos h12] at hx; exact withNoActs_acts hx
  rw [if_neg h12] at hx
  by_cases h13 : m.type = some "UPDATE_USER_INFO"
  · rw [if_pos h13] at hx; exact withNoActs_acts hx
  rw [if_neg h13] at hx
  by_cases h14 : m.type = some "OPEN_URL"
  · rw [if_pos h14] at hx; exact withNoActs_acts hx
  rw [if_neg h14] at hx
  injection hx with hx
  subst hx
  rfl

/- ------------------------------------------------------------------ -/
/- Claim theorems -/
/- ------------------------------------------------------------------ -/

/-- Claim C1 (code evaluated at the failing input): a TAKE_PHOTO
envelope carrying its correlation id at the top level (as the repo's
own injected page script builds it) whose camera launch rejects is
answered with a success-false response whose `id` is `none` — the
handler reads the correlation id from `data.id`, not from the
envelope's `id`, so the failure response is not correlated to the
original envelope's id. -/
theorem takePhoto_failure_response_drops_envelope_id :
    WebViewBridge.handleMessage env0 takePhotoEnvelope =
      ([{ type := "PHOTO_RESULT",
          data := { success := some false, error := some "Camera unavailable" },
          id := none }], []) ∧
    takePhotoEnvelope.id = some "msg_1759276800000_k3j9x1q2z" := by
  constructor
  · decide
  · rfl

/-- Claim C2: an envelope whose type matches no registered case yields
the unknown-type ERROR response echoing the type and carrying the
envelope's own id, and dispatch does not throw for it (the switch body
itself already returns `.ok`, before the outer catch). -/
theorem unknown_type_error_response :
    ∀ (env : Env) (m : BridgeMessage),
      m.type ∉ WebViewBridge.registeredMessageTypes.map some →
      WebViewBridge.handleMessageExc env m =
        .ok ([{ type := "ERROR",
                data := { error := some "Unknown message type", type := m.type },
                id := m.id }], []) := by
  intro env m h
  simp [WebViewBridge.registeredMessageTypes] at h
  obtain ⟨h1, h2, h3, h4, h5, h6, h7, h8, h9, h10, h11, h12, h13, h14⟩ := h
  unfold WebViewBridge.handleMessageExc
  rw [if_neg h1, if_neg h2, if_neg h3, if_neg h4, if_neg h5, if_neg h6, if_neg h7,
    if_neg h8, if_neg h9, if_neg h10, if_neg h11, if_neg h12, if_neg h13, if_neg h14]

/-- Claim C2 witness: the theorem applied to a concrete FROBNICATE
envelope. -/
theorem unknown_type_error_response_witness :
    WebViewBridge.handleMessageExc env0 unknownEnvelope =
      .ok ([{ type := "ERROR",
              data := { error := some "Unknown message type", type := some "FROBNICATE" },
              id := some "msg_7" }], []) :=
  unknown_type_error_response env0 unknownEnvelope (by decide)

/-- Claim C3: when no permission-request promise rejects, the gate
returns true iff every requested kind is granted (a single denial makes
the aggregate false regardless of the others, by aggregation over all
results), and any kind outside camera / microphone / location /
media_library is an automatic denial. -/
theorem requestPermissions_iff_all_granted :
    ∀ (env : Env) (perms : List String),
      env.permRequestThrows = false →
      ((requestPermissions env (some perms) = true ↔
          ∀ p ∈ perms, permissionGrant env p = true) ∧
       ∀ p : String,
         p ∉ (["camera", "microphone", "location", "media_library"] : List String) →
         permissionGrant env p = false) := by
  intro env perms h
  constructor
  · simp [requestPermissions, h, List.all_eq_true]
  · intro p hp
    simp at hp
    obtain ⟨hp1, hp2, hp3, hp4⟩ := hp
    simp [permissionGrant, hp1, hp2, hp3, hp4]

/-- Claim C3 witness: with the location grant denied and the camera
grant succeeding, the aggregate over camera and location is false. -/
theorem requestPermissions_iff_all_granted_witness :
    requestPermissions envDenyLocation (some ["camera", "location"]) = false := by
  have h := (requestPermissions_iff_all_granted envDenyLocation ["camera", "location"] rfl).1
  revert h
  decide

/-- Claim C4: with the microphone grant succeeding, `start` while
Recording fails with the already-recording error and leaves the state
(including the in-progress recording) untouched, and `stop` while Idle
fails with the no-active-recording error and leaves the state Idle. -/
theorem audio_recording_state_machine :
    ∀ (env : Env) (s : MediaService.MediaState),
      (requestPermissions env (some ["microphone"]) = true → s.isRecording = true →
        MediaService.startAudioRecording env s =
          (s, { success := false, error := some "Already recording" })) ∧
      (s.isRecording = false →
        MediaService.stopAudioRecording env s =
          (s, { success := false, error := some "No active recording" })) := by
  intro env s
  constructor
  · intro hperm hrec
    simp [MediaService.startAudioRecording, hperm, hrec]
  · intro h
    simp [MediaService.stopAudioRecording, h]

/-- Claim C4 witness: the theorem applied to the concrete recording and
idle states under env0. -/
theorem audio_recording_state_machine_witness :
    MediaService.startAudioRecording env0 recordingState =
      (recordingState, { success := false, error := some "Already recording" }) ∧
    MediaService.stopAudioRecording env0 idleState =
      (idleState, { success := false, error := some "No active recording" }) :=
  ⟨(audio_recording_state_machine env0 recordingState).1 (by decide) rfl,
   (audio_recording_state_machine env0 idleState).2 rfl⟩

/-- Claim C5 counterexample: a parsed message lacking the `type` field
is not dropped silently — the container hands it to the bridge, whose
switch default sends an unknown-type ERROR response back to the page. -/
theorem missing_type_message_not_dropped :
    WebViewContainer.handleMessage env0 true (.parsed noTypeMessage) =
      ([{ type := "ERROR",
          data := { error := some "Unknown message type", type := none },
          id := some "msg_42" }], []) ∧
    (WebViewContainer.handleMessage env0 true (.parsed noTypeMessage)).1 ≠ [] := by
  constructor
  · decide
  · decide

/-- Claim C5 (amended): raw messages that fail JSON parsing are dropped
with only a log entry and nothing is sent to the page; a parsed message
lacking `type` is instead dispatched and yields an unknown-type ERROR
response sent back to the page. -/
theorem malformed_message_handling :
    ∀ (env : Env) (bp : Bool) (m : BridgeMessage),
      WebViewContainer.handleMessage env bp .unparseable = ([], []) ∧
      (m.type = none →
        WebViewContainer.handleMessage env true (.parsed m) =
          ([{ type := "ERROR",
              data := { error := some "Unknown message type", type := none },
              id := m.id }], [])) := by
  intro env bp m
  refine ⟨rfl, fun h => ?_⟩
  obtain ⟨mt, md, mid⟩ := m
  cases mt with
  | none => rfl
  | some t => exact absurd h (by simp)

/-- Claim C5 witness: the amended theorem applied to a concrete
unparseable event and a concrete type-less message. -/
theorem malformed_message_handling_witness :
    WebViewContainer.handleMessage env0 true .unparseable = ([], []) ∧
    WebViewContainer.handleMessage env0 true
        (.parsed { type := none, data := none, id := some "w5" }) =
      ([{ type := "ERROR",
          data := { error := some "Unknown message type", type := none },
          id := some "w5" }], []) :=
  ⟨(malformed_message_handling env0 true { type := none, data := none, id := some "w5" }).1,
   (malformed_message_handling env0 true { type := none, data := none, id := some "w5" }).2 rfl⟩

/-- Claim C6: below the fixed ceiling of 3 a load error schedules an
automatic reload after the fixed 2000 ms backoff whose firing
increments the counter; at the ceiling it surfaces the manual-retry
prompt; the manual retry resets the counter to 0; and from a fresh
session, four consecutive load errors produce exactly three scheduled
auto-retries followed by the manual prompt. -/
theorem retry_ceiling_and_manual_reset :
    ∀ s : WebViewContainer.ContainerState,
      (s.retryCount < 3 →
        (WebViewContainer.handleError s).2 =
          .autoRetryScheduled WebViewContainer.autoRetryBackoffMs ∧
        (WebViewContainer.autoRetryFire (WebViewContainer.handleError s).1).retryCount =
          s.retryCount + 1) ∧
      (3 ≤ s.retryCount → (WebViewContainer.handleError s).2 = .manualPrompt) ∧
      (WebViewContainer.manualRetryPress s).retryCount = 0 ∧
      (WebViewContainer.containerRun WebViewContainer.initialContainerState
        [.errorSignal, .autoRetryFire, .errorSignal, .autoRetryFire,
         .errorSignal, .autoRetryFire, .errorSignal]).2 =
        [.autoRetryScheduled WebViewContainer.autoRetryBackoffMs,
         .autoRetryScheduled WebViewContainer.autoRetryBackoffMs,
         .autoRetryScheduled WebViewContainer.autoRetryBackoffMs,
         .manualPrompt] := by
  intro s
  refine ⟨fun h => ⟨?_, ?_⟩, fun h => ?_, ?_, ?_⟩
  · simp [WebViewContainer.handleError, h]
  · simp [WebViewContainer.handleError, WebViewContainer.autoRetryFire, h,
      readyEffect_retryCount]
  · have h3 : ¬ s.retryCount < 3 := by omega
    simp [WebViewContainer.handleError, h3]
  · simp [WebViewContainer.manualRetryPress, readyEffect_retryCount]
  · decide

/-- Claim C6 witness: the theorem applied to concrete states below and
at the retry ceiling. -/
theorem retry_ceiling_and_manual_reset_witness :
    ((WebViewContainer.handleError retryState2).2 =
        .autoRetryScheduled WebViewContainer.autoRetryBackoffMs ∧
      (WebViewContainer.autoRetryFire (WebViewContainer.handleError retryState2).1).retryCount =
        retryState2.retryCount + 1) ∧
    (WebViewContainer.handleError retryState3).2 = .manualPrompt :=
  ⟨(retry_ceiling_and_manual_reset retryState2).1 (by decide),
   (retry_ceiling_and_manual_reset retryState3).2.1 (by decide)⟩

/-- Claim C7 (code evaluated at the failing trace): after mount and a
first load-end the ready notification has fired once, but a reload
cycle (load-start then load-end again) fires it a second time — the
ready-notification effect lacks the once-guard that `handleLoadEnd`'s
deferred check has, so the notification is not emitted exactly once per
session. -/
theorem ready_notification_fires_twice_on_reload :
    (WebViewContainer.containerRun WebViewContainer.initialContainerState
      [.mountTimerFire, .loadEnd]).1.notifyCount = 1 ∧
    (WebViewContainer.containerRun WebViewContainer.initialContainerState
      [.mountTimerFire, .loadEnd, .loadStart, .loadEnd]).1.notifyCount = 2 := by
  constructor
  · decide
  · decide

/-- Claim C8: while the maximum-wait timer is still pending, its firing
dismisses the splash overlay; a dismissed overlay stays dismissed under
every later signal (the timed-out state is terminal); and the
container's loading-timeout forces a load end with the error flag set
when it fires during loading. -/
theorem timeout_forces_overlay_dismissal :
    ∀ (s : RootLayout.SplashState) (evs : List RootLayout.SplashEvent)
      (c : WebViewContainer.ContainerState),
      (s.maxTimerActive = true →
        (RootLayout.splashStep s .maxTimeoutFire).showSplash = false) ∧
      (s.showSplash = false →
        (RootLayout.splashRun s evs).showSplash = false) ∧
      (c.isLoading = true →
        (WebViewContainer.loadingTimeoutFire c).isLoading = false ∧
        (WebViewContainer.loadingTimeoutFire c).hasError = true) := by
  intro s evs c
  refine ⟨fun h => ?_, fun h => splashRun_stays_hidden evs s h, fun h => ?_⟩
  · simp [RootLayout.splashStep, h]
  · constructor
    · simp [WebViewContainer.loadingTimeoutFire, h, readyEffect_isLoading]
    · simp [WebViewContainer.loadingTimeoutFire, h, readyEffect_hasError]

/-- Claim C8 witness: the theorem applied to a pending splash state, a
hidden splash state with further signals, and the freshly mounted
container state. -/
theorem timeout_forces_overlay_dismissal_witness :
    (RootLayout.splashStep splashPending .maxTimeoutFire).showSplash = false ∧
    (RootLayout.splashRun splashHidden [.maxTimeoutFire, .webViewReady]).showSplash = false ∧
    ((WebViewContainer.loadingTimeoutFire WebViewContainer.initialContainerState).isLoading
        = false ∧
      (WebViewContainer.loadingTimeoutFire WebViewContainer.initialContainerState).hasError
        = true) :=
  ⟨(timeout_forces_overlay_dismissal splashPending []
      WebViewContainer.initialContainerState).1 rfl,
   (timeout_forces_overlay_dismissal splashHidden [.maxTimeoutFire, .webViewReady]
      WebViewContainer.initialContainerState).2.1 rfl,
   (timeout_forces_overlay_dismissal splashPending []
      WebViewContainer.initialContainerState).2.2 rfl⟩

/-- Claim C9 counterexample: the page-side generator in the injected
bridge script combines only the timestamp with a random suffix, so two
distinct invocations (the 0th and the 1st) that fall in the same
millisecond and draw the same random suffix produce the same id. -/
theorem page_message_ids_collide :
    BridgeScript.nthMessageId (fun _ => 1759276800000) (fun _ => "k3j9x1q2z") 0 =
      BridgeScript.nthMessageId (fun _ => 1759276800000) (fun _ => "k3j9x1q2z") 1 ∧
    (0 : Nat) ≠ 1 :=
  ⟨rfl, by omega⟩

/-- Claim C9 (amended): the native-side generator combines the
monotonic instance counter with the timestamp, and two distinct
invocations in one session always produce distinct ids, whatever the
timestamps. -/
theorem native_message_ids_distinct :
    ∀ (ts : Nat → Nat) (i j : Nat), i ≠ j →
      WebViewBridge.nthMessageId ts i ≠ WebViewBridge.nthMessageId ts j := by
  intro ts i j hij h
  simp only [WebViewBridge.nthMessageId] at h
  have := generateMessageId_inj h
  omega

/-- Claim C9 witness: the 0th and 1st native ids differ even when both
calls read the same clock value. -/
theorem native_message_ids_distinct_witness :
    WebViewBridge.nthMessageId (fun _ => 1759276800000) 0 ≠
      WebViewBridge.nthMessageId (fun _ => 1759276800000) 1 :=
  native_message_ids_distinct (fun _ => 1759276800000) 0 1 (by omega)

/-- Claim C10: when the microphone grant succeeds and prepare, start and
stop all succeed, the RECORD_AUDIO handler schedules the fixed
10000 ms stop timer and the success response reports duration exactly
10000 regardless of the scenario; and across the whole dispatch, a stop
of the recorder is scheduled only by a RECORD_AUDIO envelope and only
with the fixed 10000 ms delay — no bridge message type exposes a stop
operation. -/
theorem record_audio_fixed_duration_and_no_stop :
    (∀ (env : Env) (d : Payload),
      requestPermissions env (some ["microphone"]) = true →
      env.recPrepare = .ok () → env.recStart = .ok () → env.recStopUnload = .ok () →
      WebViewBridge.handleRecordAudio env (some d) =
        .ok ([{ type := "AUDIO_RECORD_RESULT",
                data := { success := some true, uri := env.recUri, duration := some 10000 },
                id := d.id }],
             [.audioStart, .audioStopScheduled WebViewBridge.recordAudioTimerMs])) ∧
    (∀ (env : Env) (m : BridgeMessage) (k : Nat),
      NativeAct.audioStopScheduled k ∈ (WebViewBridge.handleMessage env m).2 →
      m.type = some "RECORD_AUDIO" ∧ k = WebViewBridge.recordAudioTimerMs) := by
  constructor
  · intro env d hperm hp hs hst
    simp [WebViewBridge.handleRecordAudio, hperm, hp, hs, hst]
  · intro env m k hk
    by_cases hA : m.type = some "RECORD_AUDIO"
    · refine ⟨hA, ?_⟩
      rcases hx : WebViewBridge.handleMessageExc env m with e | out
      · simp [WebViewBridge.handleMessage, hx] at hk
      · simp only [WebViewBridge.handleMessage, hx] at hk
        have hx' : WebViewBridge.handleRecordAudio env m.data = .ok out := by
          have h := hx
          unfold WebViewBridge.handleMessageExc at h
          rw [if_neg (by rw [hA]; decide), if_neg (by rw [hA]; decide),
            if_neg (by rw [hA]; decide), if_pos hA] at h
          exact h
        rcases handleRecordAudio_acts env m.data out hx' with h0 | h0 <;>
          rw [h0] at hk <;> simp at hk
        exact hk
    · exfalso
      rcases hx : WebViewBridge.handleMessageExc env m with e | out
      · simp [WebViewBridge.handleMessage, hx] at hk
      · simp only [WebViewBridge.handleMessage, hx] at hk
        rw [noAudio_acts env m out hx hA] at hk
        simp at hk

/-- Claim C10 witness: the first part of the theorem applied to env0
and an empty payload. -/
theorem record_audio_fixed_duration_and_no_stop_witness :
    WebViewBridge.handleRecordAudio env0 (some {}) =
      .ok ([{ type := "AUDIO_RECORD_RESULT",
              data := { success := some true, uri := some "file:///rec/recording.m4a",
                        duration := some 10000 },
              id := none }],
           [.audioStart, .audioStopScheduled WebViewBridge.recordAudioTimerMs]) :=
  record_audio_fixed_duration_and_no_stop.1 env0 {} (by decide) rfl rfl rfl

end PastorAgenda
